/-
  Verification of the multi-agent code-review engine
  (repository: githubApp-python, package `code_reviewer`).

  This file gives a shallow embedding, in Lean 4, of the pure core of the
  engine:

  * `specialized_agents.py` : the `Severity` enumeration, the `ReviewFinding`
    and `AgentReview` records, the line-oriented reply parser
    `BaseReviewAgent._parse_response`, and the per-category prompt builders
    `get_specialized_prompt`;
  * `consolidation_agent.py` : `ConsolidationAgent.consolidate_reviews`
    together with its helpers, and the JSON review-comment generation
    `generate_json_review_comments` (retry / parse-fallback / file-path
    normalization chain);
  * `llm_manager.py` : the `SandboxInstances` client cache;
  * `multi_agent_reviewer.py` : `MultiAgentCodeReviewer.review_code`.

  Modelling conventions.  Python strings are modelled by Lean `String`,
  operating on the underlying `List Char` (Python indexes and measures
  strings by code points, which matches `String.data`).  Python string
  helpers (`strip`, `lower`, `title`, `in`, slicing, `split('\n')`) are
  re-implemented character-by-character below; they agree with CPython on
  ASCII input, which is the alphabet of every keyword the code matches on.
  Calls to the remote text-generation backend are external effects: each
  embedded operation takes the backend's reply (an `Option String`, `none`
  for a failed call) as an explicit argument.  Python's `json.loads` and
  the two `re.search` extractions of `generate_json_review_comments` are
  foreign-library calls and are abstracted as explicit function arguments;
  every theorem about that operation quantifies over their behaviour.
  Python `round` (banker's rounding) is modelled exactly on rationals by
  `roundHalfEven`.  Identity (reference equality) of backend clients is
  modelled by tagging each constructed client with a fresh natural number.
-/
import Mathlib

set_option maxRecDepth 20000

namespace CodeReviewer

/-! ## Python string primitives -/

/-- Python `str.strip()` : remove leading and trailing whitespace. -/
def pyStrip (s : String) : String :=
  String.mk (((s.data.dropWhile Char.isWhitespace).reverse.dropWhile Char.isWhitespace).reverse)

/-- Python `pat in s` : substring containment test. -/
def pyContains (s pat : String) : Bool :=
  s.data.tails.any (fun t => pat.data.isPrefixOf t)

/-- Python `str.lower()` (ASCII-faithful). -/
def pyLower (s : String) : String :=
  String.mk (s.data.map Char.toLower)

/-- Python `s.replace('_', ' ')`. -/
def pyUnderscoreToSpace (s : String) : String :=
  String.mk (s.data.map (fun c => if c = '_' then ' ' else c))

/-- Helper for `pyTitle`: the Boolean records whether the previous
character was alphabetic. -/
def pyTitleAux : Bool → List Char → List Char
  | _, [] => []
  | prevAlpha, c :: cs =>
    (if c.isAlpha then (if prevAlpha then c.toLower else c.toUpper) else c)
      :: pyTitleAux c.isAlpha cs

/-- Python `str.title()` (ASCII-faithful). -/
def pyTitle (s : String) : String :=
  String.mk (pyTitleAux false s.data)

/-- Python `s.split('\n')` on the character list. -/
def splitNewlineAux : List Char → List (List Char)
  | [] => [[]]
  | c :: cs =>
    let r := splitNewlineAux cs
    if c = '\n' then [] :: r
    else
      match r with
      | [] => [[c]]
      | h :: t => (c :: h) :: t

/-- Python `s.split('\n')`. -/
def pySplitLines (s : String) : List String :=
  (splitNewlineAux s.data).map String.mk

/-- Python slicing `s[:n]` (by code points). -/
def pyTake (s : String) (n : Nat) : String :=
  String.mk (s.data.take n)

/-- Python `len(s)` (code points). -/
def pyLen (s : String) : Nat := s.data.length

/-! ## Data model (`specialized_agents.py`) -/

/-- `Severity` enumeration (`specialized_agents.py`, lines 18-24). -/
inductive Severity
  | critical
  | high
  | medium
  | low
  | info
deriving DecidableEq, Repr

/-- `Severity.value` : the string payload of each enumeration member. -/
def Severity.value : Severity → String
  | .critical => "critical"
  | .high => "high"
  | .medium => "medium"
  | .low => "low"
  | .info => "info"

/-- `ReviewFinding` dataclass (`specialized_agents.py`, lines 27-38).
Optional fields default to `None`. -/
structure ReviewFinding where
  agent_type : String
  severity : Severity
  title : String
  description : String
  line_number : Option Int := none
  code_snippet : Option String := none
  suggestion : Option String := none
  category : Option String := none
deriving DecidableEq, Repr

/-- `AgentReview` dataclass (`specialized_agents.py`, lines 40-48). -/
structure AgentReview where
  agent_name : String
  agent_type : String
  overall_score : Int
  summary : String
  findings : List ReviewFinding
  recommendations : List String
deriving DecidableEq, Repr

/-! ## The reply parser (`BaseReviewAgent._parse_response`) -/

/-- Severity classification of one (stripped) reply line
(`specialized_agents.py`, lines 143-152): keyword search on the
lowercased line. -/
def severityOfLine (line : String) : Severity :=
  if ["critical", "severe", "vulnerability"].any (fun k => pyContains (pyLower line) k) then
    Severity.critical
  else if ["high", "important", "major"].any (fun k => pyContains (pyLower line) k) then
    Severity.high
  else if ["medium", "moderate"].any (fun k => pyContains (pyLower line) k) then
    Severity.medium
  else if ["low", "minor"].any (fun k => pyContains (pyLower line) k) then
    Severity.low
  else
    Severity.info

/-- Markers identifying a finding line (`specialized_agents.py`, line 155). -/
def findingIndicators : List String := ["issue:", "problem:", "vulnerability:", "warning:"]

/-- Markers identifying a recommendation line (`specialized_agents.py`, line 166). -/
def recommendationIndicators : List String := ["recommend:", "suggest:", "should:", "fix:"]

/-- One iteration of the `for line in lines` loop of `_parse_response`
(`specialized_agents.py`, lines 137-167), acting on the accumulated
`(findings, recommendations)` pair. -/
def parseLineStep (agent_type : String) (acc : List ReviewFinding × List String)
    (raw : String) : List ReviewFinding × List String :=
  let line := pyStrip raw
  if line = "" then acc
  else
    let severity := severityOfLine line
    let acc1 :=
      if findingIndicators.any (fun k => pyContains (pyLower line) k) then
        (acc.1 ++ [{ agent_type := agent_type, severity := severity, title := line,
                     description := line, category := some agent_type }], acc.2)
      else acc
    if recommendationIndicators.any (fun k => pyContains (pyLower line) k) then
      (acc1.1, acc1.2 ++ [line])
    else acc1

/-- The score update of one finding (`specialized_agents.py`, lines 170-177). -/
def scoreStep (s : Int) (f : ReviewFinding) : Int :=
  match f.severity with
  | .critical => s - 3
  | .high => s - 2
  | .medium => s - 1
  | _ => s

/-- `BaseReviewAgent._parse_response` (`specialized_agents.py`, lines
126-188): scan the reply line by line, collect findings and
recommendations, derive a score starting at 10 (floored at 1), and
truncate the summary to the first 200 characters. -/
def parse_response (agent_name agent_type : String) (response : String) (code : String) : AgentReview :=
  let _ := code   -- the `code` parameter of `_parse_response` is unused by the source
  let lines := pySplitLines response
  let acc := lines.foldl (parseLineStep agent_type) ([], [])
  let findings := acc.1
  let recommendations := acc.2
  let score := findings.foldl scoreStep (10 : Int)
  let score := max 1 score
  { agent_name := agent_name
    agent_type := agent_type
    overall_score := score
    summary := if 200 < pyLen response then pyTake response 200 ++ "..." else response
    findings := findings
    recommendations := recommendations }

/-! ## Python `round` -/

/-- Python 3's `round` on an exact rational value: round to the nearest
integer, ties to the even integer (banker's rounding).  This models
`round(total_score / len(agent_reviews))`, whose argument is an exact
ratio of machine integers. -/
def roundHalfEven (q : ℚ) : ℤ :=
  if q - ⌊q⌋ < 1 / 2 then ⌊q⌋
  else if 1 / 2 < q - ⌊q⌋ then ⌊q⌋ + 1
  else if ⌊q⌋ % 2 = 0 then ⌊q⌋ else ⌊q⌋ + 1

/-! ## The consolidation engine (`consolidation_agent.py`) -/

/-- `ConsolidatedReview` dataclass (`consolidation_agent.py`, lines 18-28).
The two Python dicts (built with `defaultdict`) are modelled as total
functions from keys; `defaultdict(list)` and `defaultdict(int)` make
every lookup total in Python as well. -/
structure ConsolidatedReview where
  overall_score : Int
  summary : String
  agent_reviews : List AgentReview
  critical_issues : List ReviewFinding
  high_priority_recommendations : List String
  findings_by_category : String → List ReviewFinding
  severity_distribution : String → Nat
  detailed_analysis : String

/-- The mutable aggregation state of the `for review in agent_reviews`
loop of `consolidate_reviews` (`consolidation_agent.py`, lines 89-105). -/
structure ConsolidationState where
  all_findings : List ReviewFinding
  critical_issues : List ReviewFinding
  all_recommendations : List String
  findings_by_category : String → List ReviewFinding
  severity_distribution : String → Nat

/-- The inner `for finding in review.findings` body
(`consolidation_agent.py`, lines 100-105). -/
def consolidateFinding (st : ConsolidationState) (f : ReviewFinding) : ConsolidationState :=
  { st with
    critical_issues :=
      if f.severity = Severity.critical then st.critical_issues ++ [f] else st.critical_issues
    findings_by_category := fun c =>
      if c = f.agent_type then st.findings_by_category c ++ [f] else st.findings_by_category c
    severity_distribution := fun v =>
      if v = f.severity.value then st.severity_distribution v + 1 else st.severity_distribution v }

/-- The outer `for review in agent_reviews` body
(`consolidation_agent.py`, lines 96-105). -/
def consolidateReview (st : ConsolidationState) (r : AgentReview) : ConsolidationState :=
  let st := { st with
    all_findings := st.all_findings ++ r.findings
    all_recommendations := st.all_recommendations ++ r.recommendations }
  r.findings.foldl consolidateFinding st

/-- The empty aggregation state (`consolidation_agent.py`, lines 90-94). -/
def initialConsolidationState : ConsolidationState :=
  { all_findings := []
    critical_issues := []
    all_recommendations := []
    findings_by_category := fun _ => []
    severity_distribution := fun _ => 0 }

/-- Keyword table of `_extract_high_priority_recommendations`
(`consolidation_agent.py`, lines 197-201). -/
def priorityKeywords : List String :=
  ["security", "vulnerability", "critical", "fix immediately",
   "performance", "bottleneck", "memory leak", "sql injection",
   "xss", "authentication", "authorization"]

/-- `_extract_high_priority_recommendations` (`consolidation_agent.py`,
lines 185-208).  `if issue.suggestion:` is Python truthiness: the
suggestion must be present and non-empty. -/
def extract_high_priority_recommendations (all_recommendations : List String)
    (critical_issues : List ReviewFinding) : List String :=
  let hp := critical_issues.foldl
    (fun acc issue =>
      match issue.suggestion with
      | some s => if s ≠ "" then acc ++ ["CRITICAL: " ++ s] else acc
      | none => acc) []
  let hp := all_recommendations.foldl
    (fun acc r =>
      if priorityKeywords.any (fun k => pyContains (pyLower r) k) then
        if acc.contains r then acc else acc ++ [r]
      else acc) hp
  hp.take 10

/-- Score banding of `_generate_executive_summary`
(`consolidation_agent.py`, lines 217-224). -/
def qualityAssessment (overall_score : Int) : String :=
  if 8 ≤ overall_score then "excellent"
  else if 6 ≤ overall_score then "good"
  else if 4 ≤ overall_score then "acceptable"
  else "needs improvement"

/-- `_generate_executive_summary` (`consolidation_agent.py`, lines 210-232). -/
def generate_executive_summary (agent_reviews : List AgentReview) (overall_score : Int)
    (critical_count : Nat) : String :=
  let agent_names := agent_reviews.map (fun r => pyTitle (pyUnderscoreToSpace r.agent_type))
  let agent_list := String.intercalate ", " agent_names
  let critical_text :=
    if 0 < critical_count then
      " However, " ++ toString critical_count ++ " critical issue" ++
        (if critical_count ≠ 1 then "s" else "") ++ " require immediate attention."
    else ""
  "Code review completed by " ++ toString agent_reviews.length ++
    " specialized agents: " ++ agent_list ++ ". \nOverall code quality is " ++
    qualityAssessment overall_score ++ " with a score of " ++ toString overall_score ++
    "/10." ++ critical_text ++
    " \nReview covers security, performance, coding practices, architecture, readability, and testability aspects."

/-- Placeholder narrative used when the backend call of
`_generate_consolidated_analysis` fails (`consolidation_agent.py`, line 183). -/
def analysisFallback : String :=
  "Unable to generate detailed analysis due to AI service unavailability."

/-- `ConsolidationAgent.consolidate_reviews` (`consolidation_agent.py`,
lines 85-135).  `analysis_response` is the reply of the one backend call
made by `_generate_consolidated_analysis` (`none` when that call fails);
everything else is computed exactly as in the source. -/
def consolidate_reviews (agent_reviews : List AgentReview) (original_code : String)
    (analysis_response : Option String) : ConsolidatedReview :=
  let _ := original_code   -- only used to build the backend prompt
  let st := agent_reviews.foldl consolidateReview initialConsolidationState
  let total_score : Int := (agent_reviews.map (fun r => r.overall_score)).sum
  let overall_score : Int :=
    if agent_reviews.isEmpty then 5
    else roundHalfEven ((total_score : ℚ) / (agent_reviews.length : ℚ))
  let detailed_analysis :=
    match analysis_response with
    | some s => s
    | none => analysisFallback
  let high_priority_recommendations :=
    extract_high_priority_recommendations st.all_recommendations st.critical_issues
  let summary :=
    generate_executive_summary agent_reviews overall_score st.critical_issues.length
  { overall_score := overall_score
    summary := summary
    agent_reviews := agent_reviews
    critical_issues := st.critical_issues
    high_priority_recommendations := high_priority_recommendations
    findings_by_category := st.findings_by_category
    severity_distribution := st.severity_distribution
    detailed_analysis := detailed_analysis }

/-! ## The orchestrator (`multi_agent_reviewer.py`) -/

/-- `MultiAgentCodeReviewer.review_code` (`multi_agent_reviewer.py`,
lines 70-105).  `agent_results` gives, for each enabled agent type, the
outcome of that agent's `review_code` run (`none` when the agent returned
`None`, raised, or timed out); both `_run_agents_parallel` and
`_run_agents_sequential` collect exactly the non-`None`, non-raising
results, so the collected list is `enabled_agents.filterMap agent_results`
(in arrival order, which in sequential mode is submission order;
consolidation is applied to whatever order arises, and the embedding
fixes submission order). -/
def review_code (enabled_agents : List String) (agent_results : String → Option AgentReview)
    (code : String) (analysis_response : Option String) : Option ConsolidatedReview :=
  if enabled_agents.isEmpty then none
  else
    let agent_reviews := enabled_agents.filterMap agent_results
    if agent_reviews.isEmpty then none
    else some (consolidate_reviews agent_reviews code analysis_response)

/-! ## The client cache (`llm_manager.py`) -/

/-- The state of `SandboxInstances`: the `llm_map` dict (an insertion-ordered
association list from cache-key strings to clients) plus a counter
supplying a fresh identity for each client constructed by
`get_llm_instance`.  Reference equality of Python client objects is
modelled by equality of these identity tags. -/
structure CacheState where
  llm_map : List (String × Nat)
  next_id : Nat
deriving DecidableEq, Repr

/-- The cache key `f"{name}_{is_local}_{creativity_level}"`
(`llm_manager.py`, line 69).  `creativity_repr` is the already-formatted
`str(creativity_level)`; equal `creativity_level` floats have equal
representations. -/
def cache_key (name : String) (is_local : Bool) (creativity_repr : String) : String :=
  name ++ "_" ++ (if is_local then "True" else "False") ++ "_" ++ creativity_repr

/-- Dict lookup `llm_map.get(key)`. -/
def cacheLookup (m : List (String × Nat)) (k : String) : Option Nat :=
  (m.find? (fun p => p.1 == k)).map (fun p => p.2)

/-- `SandboxInstances.get_instance` (`llm_manager.py`, lines 56-77):
if no client is cached under the key, construct one (a fresh identity)
and store it; return the client stored under the key. -/
def get_instance (st : CacheState) (name : String) (is_local : Bool)
    (creativity_repr : String) : Nat × CacheState :=
  let key := cache_key name is_local creativity_repr
  match cacheLookup st.llm_map key with
  | some c => (c, st)
  | none => (st.next_id, ⟨st.llm_map ++ [(key, st.next_id)], st.next_id + 1⟩)

/-- `SandboxInstances.clear_cache` (`llm_manager.py`, lines 79-83). -/
def clear_cache (st : CacheState) : CacheState :=
  { st with llm_map := [] }

/-- An arbitrary sequence of further `get_instance` calls, each given by a
`(name, is_local, creativity_repr)` triple. -/
def runCalls (calls : List (String × Bool × String)) (st : CacheState) : CacheState :=
  calls.foldl (fun s c => (get_instance s c.1 c.2.1 c.2.2).2) st

/-! ## JSON review-comment generation
(`ConsolidationAgent.generate_json_review_comments`) -/

/-- One parsed JSON object of the backend reply:
`{"file_path": ..., "line_number": ..., "review_comment": ...}`.
`file_path = none` models an object without a `file_path` key
(`item.get('file_path', 'unknown')` then yields `'unknown'`). -/
structure JsonComment where
  file_path : Option String
  line_number : Option Int
  review_comment : Option String
deriving DecidableEq, Repr

/-- One element of the parsed JSON array: either a JSON object (`dict`)
or some other JSON value, which `isinstance(item, dict)` rejects and the
code passes through unchanged. -/
inductive JsonItem
  | obj (c : JsonComment)
  | nonDict
deriving DecidableEq, Repr

/-- A parsed JSON document: either an array of items, or any non-array
value (which `isinstance(parsed_json, list)` rejects). -/
inductive JsonValue
  | arr (items : List JsonItem)
  | nonArray
deriving DecidableEq, Repr

/-- File-path normalization applied to item `i` on the direct-parse path
(`consolidation_agent.py`, lines 532-555): with a non-empty
`extracted_files` list, an item whose claimed path is not the literal
`'unknown'` and contains some extracted file path as a substring keeps
its claimed path; every other item receives
`extracted_files[i % len(extracted_files)]`; with no extracted files the
item is stamped with the caller's `file_path`. -/
def normalizeDirectItem (extracted_files : List String) (file_path : String)
    (i : Nat) : JsonItem → JsonItem
  | .obj c =>
    if !extracted_files.isEmpty then
      let original := c.file_path.getD "unknown"
      if original != "unknown" && extracted_files.any (fun e => pyContains original e) then
        .obj { c with file_path := some original }
      else
        .obj { c with file_path := some (extracted_files.getD (i % extracted_files.length) "") }
    else
      .obj { c with file_path := some file_path }
  | .nonDict => .nonDict

/-- File-path normalization applied to item `i` on the fenced-block /
bracket-span fallback path (`consolidation_agent.py`, lines 572-580):
unconditional round-robin assignment over a non-empty `extracted_files`,
else the caller's `file_path`. -/
def normalizeFallbackItem (extracted_files : List String) (file_path : String)
    (i : Nat) : JsonItem → JsonItem
  | .obj c =>
    if !extracted_files.isEmpty then
      .obj { c with file_path := some (extracted_files.getD (i % extracted_files.length) "") }
    else
      .obj { c with file_path := some file_path }
  | .nonDict => .nonDict

/-- `ConsolidationAgent.generate_json_review_comments`
(`consolidation_agent.py`, lines 413-592), from the point where the
backend reply is in hand.  The output JSON text is modelled as the list
of items it serializes (`"[]"` is the empty list).

* `jsonLoads` abstracts the standard library's `json.loads`
  (`none` = `JSONDecodeError`);
* `fencedBlockSearch` abstracts
  `re.search(r'³³³json\s*\n(.*?)\n³³³', response, re.DOTALL)`
  (the captured group, with `³` standing for a backquote here);
* `bracketSpanSearch` abstracts
  `re.search(r'(\[.*?\])', response, re.DOTALL)` (the captured group);
* `response = none` models a run in which every `chat_completion`
  attempt raised or returned `None` (lines 507-520), `some r` a run whose
  final reply text is `r` (`r = ""` is the falsy reply of line 587).

Every exception path of the source returns `"[]"`; accordingly the
embedding is a total function into `List JsonItem`. -/
def generate_json_review_comments (jsonLoads : String → Option JsonValue)
    (fencedBlockSearch bracketSpanSearch : String → Option String)
    (extracted_files : List String) (file_path : String)
    (response : Option String) : List JsonItem :=
  match response with
  | none => []
  | some r =>
    if r = "" then []
    else
      match jsonLoads (pyStrip r) with
      | some (.arr items) => items.mapIdx (normalizeDirectItem extracted_files file_path)
      | some .nonArray => []
      | none =>
        match (fencedBlockSearch r).orElse (fun _ => bracketSpanSearch r) with
        | some json_str =>
          match jsonLoads json_str with
          | some (.arr items) => items.mapIdx (normalizeFallbackItem extracted_files file_path)
          | _ => []
        | none => []

/-! ## Specialized prompt builders (`get_specialized_prompt`)

The eleven triple-quoted f-string prompt templates of
`specialized_agents.py` are embedded verbatim; each is split at its one
interpolation slot (`{code}` or `{numbered_code}`) into a literal pre
part and post part. -/

def securityDiffPre : String :=
  "You are a cybersecurity expert conducting a security code review.\n\nCRITICAL RESTRICTION: You are reviewing a DIFF with context. You MUST ONLY comment on the lines that are being ADDED or CHANGED in the diff (lines starting with \x27+\x27 or modified lines). DO NOT comment on context lines or unchanged code.\n\nThe content below contains:\n1. DIFF TO REVIEW: The actual changes you should analyze\n2. FULL FILE CONTEXT: Additional context to understand the changes (DO NOT REVIEW THESE LINES)\n\n"

def securityDiffPost : String :=
  "\n\nINSTRUCTIONS:\n- ONLY review the lines that are being added/changed in the DIFF section\n- Use the FULL FILE CONTEXT only to understand the broader context\n- For each security issue found in the DIFF changes, provide:\n  * Exact line number from the diff\n  * Vulnerability type and impact level (Critical/High/Medium/Low)\n  * Specific remediation steps\n  * Start with \"Line X:\" format\n\nFocus on security aspects in the CHANGED LINES ONLY:\n- Input validation, authentication, data protection\n- Injection attacks (SQL, XSS, command injection)\n- Error handling, cryptography, session management\n- OWASP Top 10 vulnerabilities\n\nExample: \"Line 15: SQL Injection vulnerability - user input concatenated into query...\"\n\nBe concise and actionable. IGNORE unchanged context lines."

def securityFullPre : String :=
  "You are a cybersecurity expert conducting a thorough security code review. \n\nAnalyze this code for security vulnerabilities and provide specific, actionable feedback with EXACT LINE NUMBERS:\n\n```\n"

def securityFullPost : String :=
  "\n```\n\nCRITICAL: For each security issue found, you MUST:\n- Start with \"Line X:\" where X is the specific line number\n- Clearly state the vulnerability type\n- Explain the potential impact and risk level (Critical/High/Medium/Low)\n- Provide specific remediation steps\n\nFocus on these security aspects:\n1. **Input Validation**: Check for proper sanitization and validation of user inputs\n2. **Authentication & Authorization**: Verify access controls and permission checks\n3. **Data Protection**: Look for sensitive data exposure, encryption issues\n4. **Injection Attacks**: SQL injection, XSS, command injection vulnerabilities\n5. **Error Handling**: Information disclosure through error messages\n6. **Cryptography**: Weak encryption, insecure random number generation\n7. **Session Management**: Session fixation, hijacking vulnerabilities\n8. **OWASP Top 10**: Check against common web application security risks\n\nExample format: \"Line 15: SQL Injection vulnerability - user input is directly concatenated into query string...\"\n\nBe thorough but concise. Focus on actionable security improvements with specific line references."

def performanceDiffPre : String :=
  "You are a performance optimization expert reviewing code changes.\n\nCRITICAL RESTRICTION: You are reviewing a DIFF with context. You MUST ONLY comment on the lines that are being ADDED or CHANGED in the diff (lines starting with \x27+\x27 or modified lines). DO NOT comment on context lines or unchanged code.\n\nThe content below contains:\n1. DIFF TO REVIEW: The actual changes you should analyze\n2. FULL FILE CONTEXT: Additional context to understand the changes (DO NOT REVIEW THESE LINES)\n\n"

def performanceDiffPost : String :=
  "\n\nINSTRUCTIONS:\n- ONLY review the lines that are being added/changed in the DIFF section\n- Use the FULL FILE CONTEXT only to understand the broader context\n- For each performance issue found in the DIFF changes, provide:\n  * Exact line number from the diff\n  * Performance bottleneck identification\n  * Impact on application performance (High/Medium/Low)\n  * Specific optimization suggestions\n  * Start with \"Line X:\" format\n\nFocus on performance aspects in the CHANGED LINES ONLY:\n- Algorithm complexity, data structures, memory management\n- Database operations, caching, I/O operations\n- Concurrency, resource usage, scalability\n\nExample: \"Line 25: Inefficient loop - O(n²) complexity due to nested iteration...\"\n\nBe specific about measurable performance gains. IGNORE unchanged context lines."

def performanceFullPre : String :=
  "You are a performance optimization expert reviewing code for efficiency and scalability.\n\nAnalyze this code for performance issues and optimization opportunities with EXACT LINE NUMBERS:\n\n```\n"

def performanceFullPost : String :=
  "\n```\n\nCRITICAL: For each performance issue found, you MUST:\n- Start with \"Line X:\" where X is the specific line number\n- Identify the bottleneck or inefficiency\n- Explain the performance impact (High/Medium/Low)\n- Provide specific optimization suggestions\n\nFocus on these performance aspects:\n1. **Algorithm Complexity**: Time and space complexity analysis\n2. **Data Structures**: Optimal data structure usage\n3. **Memory Management**: Memory leaks, unnecessary allocations\n4. **Database Operations**: Query optimization, N+1 problems, indexing\n5. **Caching**: Missing caching opportunities, cache invalidation\n6. **I/O Operations**: File handling, network calls optimization\n7. **Concurrency**: Threading issues, async/await usage\n8. **Resource Usage**: CPU-intensive operations, blocking calls\n9. **Scalability**: Code that won\x27t scale with increased load\n\nExample format: \"Line 25: Inefficient loop - O(n²) complexity due to nested iteration...\"\n\nBe specific about measurable performance gains with exact line references."

def codingPracticesDiffPre : String :=
  "You are a senior software engineer expert in coding standards and best practices.\n\nCRITICAL RESTRICTION: You are reviewing a DIFF with context. You MUST ONLY comment on the lines that are being ADDED or CHANGED in the diff (lines starting with \x27+\x27 or modified lines). DO NOT comment on context lines or unchanged code.\n\nThe content below contains:\n1. DIFF TO REVIEW: The actual changes you should analyze\n2. FULL FILE CONTEXT: Additional context to understand the changes (DO NOT REVIEW THESE LINES)\n\n"

def codingPracticesDiffPost : String :=
  "\n\nINSTRUCTIONS:\n- ONLY review the lines that are being added/changed in the DIFF section\n- Use the FULL FILE CONTEXT only to understand the broader context\n- For each best practice issue found in the DIFF changes, provide:\n  * Exact line number from the diff\n  * Specific practice violation\n  * Why it matters for code quality\n  * Refactoring suggestions\n  * Start with \"Line X:\" format\n\nFocus on coding practice aspects in the CHANGED LINES ONLY:\n- Code structure, naming conventions, function design\n- Error handling, documentation, code duplication\n- SOLID principles, design patterns, testability, maintainability\n\nExample: \"Line 42: Use \x27const\x27 instead of \x27var\x27 for variables that don\x27t change...\"\n\nFocus on practical improvements that enhance code quality. IGNORE unchanged context lines."

def codingPracticesFullPre : String :=
  "You are a senior software engineer expert in coding standards and best practices.\n\nReview this code for adherence to best practices and clean code principles with EXACT LINE NUMBERS:\n\n```\n"

def codingPracticesFullPost : String :=
  "\n```\n\nCRITICAL: For each best practice issue found, you MUST:\n- Start with \"Line X:\" where X is the specific line number\n- Identify the specific practice violation\n- Explain why it matters for code quality\n- Provide refactoring suggestions\n\nEvaluate these coding practice areas:\n1. **Code Structure**: Organization, modularity, separation of concerns\n2. **Naming Conventions**: Variable, function, class naming clarity\n3. **Function Design**: Single responsibility, function length, parameters\n4. **Error Handling**: Proper exception handling, error propagation\n5. **Documentation**: Comments, docstrings, code self-documentation\n6. **Code Duplication**: DRY principle violations, repeated logic\n7. **SOLID Principles**: Single responsibility, open/closed, etc.\n8. **Design Patterns**: Appropriate pattern usage, anti-patterns\n9. **Testability**: Code structure for easy testing\n10. **Maintainability**: Code readability, future modification ease\n\nExample format: \"Line 42: Use \x27const\x27 instead of \x27var\x27 for variables that don\x27t change...\"\n\nFocus on practical improvements that enhance code quality with specific line references."

def architectureDiffPre : String :=
  "You are a software architect reviewing code changes.\n\nCRITICAL RESTRICTION: You are reviewing a DIFF with context. You MUST ONLY comment on the lines that are being ADDED or CHANGED in the diff (lines starting with \x27+\x27 or modified lines). DO NOT comment on context lines or unchanged code.\n\nThe content below contains:\n1. DIFF TO REVIEW: The actual changes you should analyze\n2. FULL FILE CONTEXT: Additional context to understand the changes (DO NOT REVIEW THESE LINES)\n\n"

def architectureDiffPost : String :=
  "\n\nINSTRUCTIONS:\n- ONLY review the lines that are being added/changed in the DIFF section\n- Use the FULL FILE CONTEXT only to understand the broader context\n- For each architectural concern found in the DIFF changes, provide:\n  * Exact line number from the diff\n  * Design issues or opportunities\n  * Architectural impact explanation\n  * Design improvement suggestions\n  * Start with \"Line X:\" format\n\nFocus on architectural aspects in the CHANGED LINES ONLY:\n- Design patterns, coupling & cohesion, abstraction levels\n- Dependency management, layered architecture, scalability design\n- Extensibility, component interactions, data flow, technical debt\n\nExample: \"Line 33: Tight coupling - direct database access should be abstracted...\"\n\nFocus on long-term architectural health. IGNORE unchanged context lines."

def architectureFullPre : String :=
  "You are a software architect reviewing code for architectural soundness and design quality.\n\nAnalyze this code from an architectural perspective with EXACT LINE NUMBERS:\n\n```\n"

def architectureFullPost : String :=
  "\n```\n\nCRITICAL: For each architectural concern found, you MUST:\n- Start with \"Line X:\" where X is the specific line number\n- Identify design issues or opportunities\n- Explain architectural impact\n- Suggest design improvements\n\nFocus on these architectural aspects:\n1. **Design Patterns**: Appropriate pattern usage, pattern violations\n2. **Coupling & Cohesion**: Loose coupling, high cohesion principles\n3. **Abstraction Levels**: Proper abstraction, interface design\n4. **Dependency Management**: Dependency injection, inversion of control\n5. **Layered Architecture**: Proper layer separation, architectural boundaries\n6. **Scalability Design**: Code structure for horizontal/vertical scaling\n7. **Extensibility**: Easy feature addition, modification points\n8. **Component Interactions**: Service boundaries, API design\n9. **Data Flow**: Information flow, state management\n10. **Technical Debt**: Architectural shortcuts, future refactoring needs\n\nExample format: \"Line 33: Tight coupling - direct database access should be abstracted...\"\n\nFocus on long-term architectural health and system evolution with specific line references."

def readabilityDiffPre : String :=
  "You are a code readability expert reviewing code changes.\n\nCRITICAL RESTRICTION: You are reviewing a DIFF with context. You MUST ONLY comment on the lines that are being ADDED or CHANGED in the diff (lines starting with \x27+\x27 or modified lines). DO NOT comment on context lines or unchanged code.\n\nThe content below contains:\n1. DIFF TO REVIEW: The actual changes you should analyze  \n2. FULL FILE CONTEXT: Additional context to understand the changes (DO NOT REVIEW THESE LINES)\n\n"

def readabilityDiffPost : String :=
  "\n\nINSTRUCTIONS:\n- ONLY review the lines that are being added/changed in the DIFF section\n- Use the FULL FILE CONTEXT only to understand the broader context\n- For each readability issue found in the DIFF changes, provide:\n  * Exact line number from the diff\n  * Readability concern identification\n  * Impact on code maintainability\n  * Specific improvement suggestions\n  * Start with \"Line X:\" format\n\nFocus on readability aspects in the CHANGED LINES ONLY:\n- Variable/function naming, code clarity, documentation\n- Comments quality, code organization, complexity reduction\n\nExample: \"Line 25: Variable name \x27x\x27 is unclear - consider using descriptive name...\"\n\nFocus on making code more readable and maintainable. IGNORE unchanged context lines."

def readabilityFullPre : String :=
  "You are a technical documentation expert focused on code readability and clarity.\n\nReview this code for readability and documentation quality with EXACT LINE NUMBERS:\n\n```\n"

def readabilityFullPost : String :=
  "\n```\n\nCRITICAL: For each readability issue found, you MUST:\n- Start with \"Line X:\" where X is the specific line number\n- Identify clarity problems\n- Explain impact on team productivity\n- Provide clearer alternatives\n\nEvaluate these readability aspects:\n1. **Code Clarity**: Self-explanatory code, clear logic flow\n2. **Variable Naming**: Descriptive, meaningful names\n3. **Function Naming**: Clear purpose indication, verb-noun patterns\n4. **Comments**: Helpful comments, avoiding obvious comments\n5. **Code Organization**: Logical grouping, consistent formatting\n6. **Documentation**: Function/class documentation, usage examples\n7. **Complexity**: Overly complex expressions, nested logic\n8. **Consistency**: Coding style consistency throughout\n9. **Magic Numbers**: Hard-coded values without explanation\n10. **Code Length**: Function/class length appropriateness\n\nExample format: \"Line 67: Variable name \x27data\x27 is too generic - consider \x27filteredUsers\x27...\"\n\nFocus on making code more accessible to other developers with specific line references."

def testabilityPre : String :=
  "You are a test engineering expert reviewing code for testability and test coverage.\n\nAnalyze this code for testing concerns and testability improvements:\n\n```\n"

def testabilityPost : String :=
  "\n```\n\nFocus on these testability aspects:\n1. **Test Coverage**: Missing test scenarios, edge cases\n2. **Dependency Injection**: Hard dependencies, mocking difficulties\n3. **Function Design**: Pure functions, side effect isolation\n4. **State Management**: Global state, stateful operations\n5. **External Dependencies**: Database, API, file system dependencies\n6. **Error Conditions**: Exception scenarios, error path testing\n7. **Test Data**: Test data setup, fixture requirements\n8. **Assertion Points**: Verifiable outcomes, observable behavior\n9. **Test Isolation**: Test independence, cleanup requirements\n10. **Mock Points**: Interfaces for mocking, testable boundaries\n\nFor each testability issue:\n- Identify testing challenges\n- Suggest refactoring for better testability\n- Recommend test scenarios to add\n- Provide testable code alternatives\n- Explain testing strategy improvements\n\nFocus on making code easier to test thoroughly."

/-- The `f"{i+1:3d}"` right-aligned width-3 formatting of a line number. -/
def fmt3 (n : Nat) : String :=
  let s := toString n
  if s.length < 3 then String.mk (List.replicate (3 - s.length) ' ') ++ s else s

/-- The line-numbered rendering used by every non-diff-only prompt
(e.g. `specialized_agents.py`, lines 229-230):
`'\n'.join([f"{i+1:3d}: {line}" for i, line in enumerate(lines)])`. -/
def numberedCode (code : String) : String :=
  let lines := pySplitLines code
  String.intercalate "\n" ((lines.enum).map (fun p => fmt3 (p.1 + 1) ++ ": " ++ p.2))

/-- `SecurityAgent.get_specialized_prompt` (`specialized_agents.py`, lines 197-258). -/
def securityPrompt (code : String) (diff_only : Bool) : String :=
  if diff_only then securityDiffPre ++ code ++ securityDiffPost
  else securityFullPre ++ numberedCode code ++ securityFullPost

/-- `PerformanceAgent.get_specialized_prompt` (`specialized_agents.py`, lines 267-329). -/
def performancePrompt (code : String) (diff_only : Bool) : String :=
  if diff_only then performanceDiffPre ++ code ++ performanceDiffPost
  else performanceFullPre ++ numberedCode code ++ performanceFullPost

/-- `CodingPracticesAgent.get_specialized_prompt` (`specialized_agents.py`, lines 338-401). -/
def codingPracticesPrompt (code : String) (diff_only : Bool) : String :=
  if diff_only then codingPracticesDiffPre ++ code ++ codingPracticesDiffPost
  else codingPracticesFullPre ++ numberedCode code ++ codingPracticesFullPost

/-- `ArchitectureAgent.get_specialized_prompt` (`specialized_agents.py`, lines 410-473). -/
def architecturePrompt (code : String) (diff_only : Bool) : String :=
  if diff_only then architectureDiffPre ++ code ++ architectureDiffPost
  else architectureFullPre ++ numberedCode code ++ architectureFullPost

/-- `ReadabilityAgent.get_specialized_prompt` (`specialized_agents.py`, lines 482-544):
the diff-only branch returns early; otherwise the (dedented) final return
renders the numbered code, exactly as the other agents do. -/
def readabilityPrompt (code : String) (diff_only : Bool) : String :=
  if diff_only then readabilityDiffPre ++ code ++ readabilityDiffPost
  else readabilityFullPre ++ numberedCode code ++ readabilityFullPost

/-- `TestabilityAgent.get_specialized_prompt` (`specialized_agents.py`, lines 553-581):
the body never consults `diff_only` and always returns the same template
around the raw (un-numbered) `code`. -/
def testabilityPrompt (code : String) (diff_only : Bool) : String :=
  let _ := diff_only   -- unused by the source
  testabilityPre ++ code ++ testabilityPost

/-! ## Theorems -/

/-- The score fold of `_parse_response` in closed form: starting from `s`,
it subtracts 3 per critical, 2 per high and 1 per medium finding. -/
theorem scoreFold_eq (fs : List ReviewFinding) (s : Int) :
    fs.foldl scoreStep s =
      s - 3 * (fs.countP (fun f => decide (f.severity = Severity.critical)) : Int)
        - 2 * (fs.countP (fun f => decide (f.severity = Severity.high)) : Int)
        - (fs.countP (fun f => decide (f.severity = Severity.medium)) : Int) := by
  induction fs generalizing s with
  | nil => simp
  | cons f fs ih =>
    simp only [List.foldl_cons, ih, List.countP_cons]
    cases hsev : f.severity <;>
      simp [scoreStep, hsev] <;> ring

/-- C6: for every parsed reviewer reply, the `AgentReview`'s
`overall_score` equals `10` minus 3 per critical finding, minus 2 per
high finding, minus 1 per medium finding (low and info findings subtract
nothing), floored at 1. -/
theorem parse_response_score (agent_name agent_type response code : String) :
    (parse_response agent_name agent_type response code).overall_score =
      max 1 (10
        - 3 * ((parse_response agent_name agent_type response code).findings.countP
            (fun f => decide (f.severity = Severity.critical)) : Int)
        - 2 * ((parse_response agent_name agent_type response code).findings.countP
            (fun f => decide (f.severity = Severity.high)) : Int)
        - ((parse_response agent_name agent_type response code).findings.countP
            (fun f => decide (f.severity = Severity.medium)) : Int)) := by
  have h : (parse_response agent_name agent_type response code).overall_score =
      max 1 ((parse_response agent_name agent_type response code).findings.foldl scoreStep 10) := rfl
  rw [h, scoreFold_eq]

/-- C9: every finding produced by the reply parser has `line_number`,
`code_snippet` and `suggestion` equal to `None`, and its title equals its
description (both are the stripped matched line); the parser never
extracts the `"Line X:"` citations its prompts demand. -/
theorem parse_response_finding_fields (agent_name agent_type response code : String) :
    ∀ f ∈ (parse_response agent_name agent_type response code).findings,
      f.line_number = none ∧ f.code_snippet = none ∧ f.suggestion = none ∧
      f.title = f.description := by
  suffices h : ∀ (lines : List String) (acc : List ReviewFinding × List String),
      (∀ g ∈ acc.1, g.line_number = none ∧ g.code_snippet = none ∧ g.suggestion = none ∧
        g.title = g.description) →
      ∀ g ∈ (lines.foldl (parseLineStep agent_type) acc).1,
        g.line_number = none ∧ g.code_snippet = none ∧ g.suggestion = none ∧
        g.title = g.description by
    exact h (pySplitLines response) ([], []) (by simp)
  intro lines
  induction lines with
  | nil => intro acc h; exact h
  | cons l ls ih =>
    intro acc h
    refine ih _ ?_
    intro g hg
    simp only [parseLineStep] at hg
    split at hg
    · exact h g hg
    · split at hg <;> split at hg <;>
        first
          | exact h g hg
          | (simp only [List.mem_append, List.mem_singleton] at hg
             rcases hg with hg | hg
             · exact h g hg
             · subst hg; exact ⟨rfl, rfl, rfl, rfl⟩)

/-- Witness for C9 at a concrete reply: the single finding parsed out of
`"vulnerability: sql injection"` carries no line number, snippet or
suggestion, and its title equals its description. -/
theorem parse_response_finding_fields_witness :
    ({ agent_type := "security", severity := Severity.critical,
       title := "vulnerability: sql injection",
       description := "vulnerability: sql injection",
       category := some "security" } : ReviewFinding).line_number = none ∧
    ({ agent_type := "security", severity := Severity.critical,
       title := "vulnerability: sql injection",
       description := "vulnerability: sql injection",
       category := some "security" } : ReviewFinding).code_snippet = none ∧
    ({ agent_type := "security", severity := Severity.critical,
       title := "vulnerability: sql injection",
       description := "vulnerability: sql injection",
       category := some "security" } : ReviewFinding).suggestion = none ∧
    ({ agent_type := "security", severity := Severity.critical,
       title := "vulnerability: sql injection",
       description := "vulnerability: sql injection",
       category := some "security" } : ReviewFinding).title =
    ({ agent_type := "security", severity := Severity.critical,
       title := "vulnerability: sql injection",
       description := "vulnerability: sql injection",
       category := some "security" } : ReviewFinding).description :=
  parse_response_finding_fields "SecurityAgent" "security"
    "vulnerability: sql injection" "code" _ (by decide)

/-- C10: the parsed review's summary is the raw reply when the reply has
at most 200 characters, otherwise its first 200 characters followed by
`"..."`; in every case the summary has at most 203 characters. -/
theorem parse_response_summary (agent_name agent_type response code : String) :
    (pyLen response ≤ 200 →
      (parse_response agent_name agent_type response code).summary = response)
    ∧ (200 < pyLen response →
      (parse_response agent_name agent_type response code).summary = pyTake response 200 ++ "...")
    ∧ pyLen (parse_response agent_name agent_type response code).summary ≤ 203 := by
  have h : (parse_response agent_name agent_type response code).summary =
      if 200 < pyLen response then pyTake response 200 ++ "..." else response := rfl
  by_cases hlen : 200 < pyLen response
  · have h203 : pyLen (pyTake response 200 ++ "...") = 203 := by
      have : (pyTake response 200 ++ "...").data = response.data.take 200 ++ "...".data :=
        String.data_append _ _
      simp only [pyLen, this, List.length_append, List.length_take]
      have : min 200 response.data.length = 200 :=
        min_eq_left (le_of_lt hlen)
      rw [this]
      rfl
    refine ⟨fun hc => absurd hlen (not_lt.mpr hc), fun _ => ?_, ?_⟩
    · rw [h, if_pos hlen]
    · rw [h, if_pos hlen, h203]
  · refine ⟨fun _ => ?_, fun hc => absurd hc hlen, ?_⟩
    · rw [h, if_neg hlen]
    · rw [h, if_neg hlen]
      exact le_trans (not_lt.mp hlen) (by norm_num)

/-- Witness for C10: a short reply is returned verbatim, and a 250-`a`
reply is truncated to its first 200 characters plus `"..."`. -/
theorem parse_response_summary_witness :
    (parse_response "A" "t" "ok" "c").summary = "ok" ∧
    (parse_response "A" "t"
        (String.mk (List.replicate 250 'a')) "c").summary =
      pyTake (String.mk (List.replicate 250 'a')) 200 ++ "..." :=
  ⟨(parse_response_summary "A" "t" "ok" "c").1 (by decide),
   (parse_response_summary "A" "t" (String.mk (List.replicate 250 'a')) "c").2.1 (by
      show 200 < pyLen (String.mk (List.replicate 250 'a'))
      simp [pyLen])⟩

/-- `roundHalfEven` respects integer upper bounds. -/
theorem roundHalfEven_le (q : ℚ) (m : ℤ) (h : q ≤ (m : ℚ)) : roundHalfEven q ≤ m := by
  have hfl : ⌊q⌋ ≤ m := by
    have h1 := Int.floor_le_floor h
    simpa using h1
  unfold roundHalfEven
  split_ifs with h1 h2 h3
  · exact hfl
  · have hlt : (⌊q⌋ : ℚ) < q := by linarith
    have : ⌊q⌋ < m := by exact_mod_cast lt_of_lt_of_le hlt h
    omega
  · exact hfl
  · have hle : (1 : ℚ) / 2 ≤ q - ⌊q⌋ := not_lt.mp h1
    have hlt : (⌊q⌋ : ℚ) < q := by linarith
    have : ⌊q⌋ < m := by exact_mod_cast lt_of_lt_of_le hlt h
    omega

/-- `roundHalfEven` respects integer lower bounds. -/
theorem le_roundHalfEven (q : ℚ) (m : ℤ) (h : (m : ℚ) ≤ q) : m ≤ roundHalfEven q := by
  have hfl : m ≤ ⌊q⌋ := Int.le_floor.mpr h
  unfold roundHalfEven
  split_ifs <;> omega

/-- Bounds on the reviewer-score sum when every score lies in `[1, 10]`. -/
theorem score_sum_bounds (reviews : List AgentReview)
    (h : ∀ r ∈ reviews, 1 ≤ r.overall_score ∧ r.overall_score ≤ 10) :
    (reviews.length : ℤ) ≤ (reviews.map (fun r => r.overall_score)).sum ∧
    (reviews.map (fun r => r.overall_score)).sum ≤ 10 * reviews.length := by
  constructor
  · have h1 := List.card_nsmul_le_sum (reviews.map (fun r => r.overall_score)) 1 ?_
    · simpa [nsmul_eq_mul] using h1
    · intro x hx
      obtain ⟨r, hr, rfl⟩ := List.mem_map.mp hx
      exact (h r hr).1
  · have h1 := List.sum_le_card_nsmul (reviews.map (fun r => r.overall_score)) 10 ?_
    · simpa [nsmul_eq_mul, mul_comm] using h1
    · intro x hx
      obtain ⟨r, hr, rfl⟩ := List.mem_map.mp hx
      exact (h r hr).2

/-- C1: for every consolidation over reviewer results whose scores are
integers in `[1, 10]`, the `ConsolidatedReview`'s `overall_score` equals
the (banker's-rounded) mean of the reviewers' scores when the list is
non-empty, equals the default `5` when the list is empty, and in every
case lies in `[1, 10]`. -/
theorem consolidate_overall_score (reviews : List AgentReview) (code : String)
    (analysis : Option String)
    (h : ∀ r ∈ reviews, 1 ≤ r.overall_score ∧ r.overall_score ≤ 10) :
    ((consolidate_reviews reviews code analysis).overall_score =
      if reviews.isEmpty then 5
      else roundHalfEven
        ((((reviews.map (fun r => r.overall_score)).sum : ℤ) : ℚ) / (reviews.length : ℚ)))
    ∧ 1 ≤ (consolidate_reviews reviews code analysis).overall_score
    ∧ (consolidate_reviews reviews code analysis).overall_score ≤ 10 := by
  have he : (consolidate_reviews reviews code analysis).overall_score =
      if reviews.isEmpty then 5
      else roundHalfEven
        ((((reviews.map (fun r => r.overall_score)).sum : ℤ) : ℚ) / (reviews.length : ℚ)) := rfl
  refine ⟨he, ?_, ?_⟩ <;> rw [he] <;> by_cases hemp : reviews.isEmpty
  · simp [hemp]
  · rw [if_neg hemp]
    have hlen : 0 < reviews.length := by
      cases reviews with
      | nil => simp at hemp
      | cons a l => simp
    have hlenQ : (0 : ℚ) < (reviews.length : ℚ) := by exact_mod_cast hlen
    have hs := (score_sum_bounds reviews h).1
    have hsQ : ((reviews.length : ℕ) : ℚ) ≤
        (((reviews.map (fun r => r.overall_score)).sum : ℤ) : ℚ) := by exact_mod_cast hs
    refine le_roundHalfEven _ 1 ?_
    rw [le_div_iff₀ hlenQ]
    have h1 : ((1 : ℤ) : ℚ) * (reviews.length : ℚ) = (reviews.length : ℚ) := by norm_num
    rw [h1]
    exact hsQ
  · simp [hemp]
  · rw [if_neg hemp]
    have hlen : 0 < reviews.length := by
      cases reviews with
      | nil => simp at hemp
      | cons a l => simp
    have hlenQ : (0 : ℚ) < (reviews.length : ℚ) := by exact_mod_cast hlen
    have hs := (score_sum_bounds reviews h).2
    have hsQ : (((reviews.map (fun r => r.overall_score)).sum : ℤ) : ℚ) ≤
        10 * ((reviews.length : ℕ) : ℚ) := by exact_mod_cast hs
    refine roundHalfEven_le _ 10 ?_
    rw [div_le_iff₀ hlenQ]
    have h1 : ((10 : ℤ) : ℚ) * (reviews.length : ℚ) = 10 * (reviews.length : ℚ) := by norm_num
    rw [h1]
    exact hsQ

/-- Witness for C1: two reviewers with scores 7 and 8 give a bounded
overall score (the mean 7.5 rounds, half-to-even, to 8). -/
theorem consolidate_overall_score_witness :
    1 ≤ (consolidate_reviews
          [{ agent_name := "A", agent_type := "security", overall_score := 7,
             summary := "s", findings := [], recommendations := [] },
           { agent_name := "B", agent_type := "performance", overall_score := 8,
             summary := "s", findings := [], recommendations := [] }] "c" none).overall_score ∧
    (consolidate_reviews
          [{ agent_name := "A", agent_type := "security", overall_score := 7,
             summary := "s", findings := [], recommendations := [] },
           { agent_name := "B", agent_type := "performance", overall_score := 8,
             summary := "s", findings := [], recommendations := [] }] "c" none).overall_score ≤ 10 :=
  ⟨(consolidate_overall_score _ "c" none (by decide)).2.1,
   (consolidate_overall_score _ "c" none (by decide)).2.2⟩

/-- The inner finding fold appends exactly the critical findings to
`critical_issues`. -/
theorem foldl_consolidateFinding_critical (fs : List ReviewFinding) (st : ConsolidationState) :
    (fs.foldl consolidateFinding st).critical_issues =
      st.critical_issues ++ fs.filter (fun f => decide (f.severity = Severity.critical)) := by
  induction fs generalizing st with
  | nil => simp
  | cons f fs ih =>
    simp only [List.foldl_cons, ih, List.filter_cons]
    by_cases hc : f.severity = Severity.critical
    · simp [consolidateFinding, hc]
    · simp [consolidateFinding, hc]

/-- The outer review fold appends exactly the critical findings of the
concatenated finding lists. -/
theorem foldl_consolidateReview_critical (reviews : List AgentReview) (st : ConsolidationState) :
    (reviews.foldl consolidateReview st).critical_issues =
      st.critical_issues ++
        ((reviews.map (fun r => r.findings)).flatten).filter
          (fun f => decide (f.severity = Severity.critical)) := by
  induction reviews generalizing st with
  | nil => simp
  | cons r rs ih =>
    simp only [List.foldl_cons, List.map_cons, List.flatten_cons, List.filter_append]
    rw [ih]
    have h1 : (consolidateReview st r).critical_issues =
        st.critical_issues ++
          r.findings.filter (fun f => decide (f.severity = Severity.critical)) := by
      simp [consolidateReview, foldl_consolidateFinding_critical]
    rw [h1, List.append_assoc]

/-- C4: the consolidated `critical_issues` list is exactly the
critical-severity filter of the concatenated findings of all reviewer
results; hence every critical finding occurrence appears exactly once
(occurrence counts are preserved) and no finding of another severity
appears there. -/
theorem consolidate_critical_issues (reviews : List AgentReview) (code : String)
    (analysis : Option String) :
    ((consolidate_reviews reviews code analysis).critical_issues =
      ((reviews.map (fun r => r.findings)).flatten).filter
        (fun f => decide (f.severity = Severity.critical)))
    ∧ (∀ f ∈ (consolidate_reviews reviews code analysis).critical_issues,
        f.severity = Severity.critical)
    ∧ (∀ f : ReviewFinding, f.severity = Severity.critical →
        (consolidate_reviews reviews code analysis).critical_issues.countP
            (fun g => decide (g = f)) =
          ((reviews.map (fun r => r.findings)).flatten).countP (fun g => decide (g = f))) := by
  have hmain : (consolidate_reviews reviews code analysis).critical_issues =
      ((reviews.map (fun r => r.findings)).flatten).filter
        (fun f => decide (f.severity = Severity.critical)) := by
    have he : (consolidate_reviews reviews code analysis).critical_issues =
        (reviews.foldl consolidateReview initialConsolidationState).critical_issues := rfl
    rw [he, foldl_consolidateReview_critical]
    simp [initialConsolidationState]
  refine ⟨hmain, ?_, ?_⟩
  · intro f hf
    rw [hmain] at hf
    exact of_decide_eq_true (List.mem_filter.mp hf).2
  · intro f hfc
    rw [hmain, List.countP_filter]
    refine List.countP_congr ?_
    intro a _
    by_cases haf : a = f
    · subst haf; simp [hfc]
    · simp [haf]

/-- Witness for C4 at concrete input: a critical and a low finding from
one reviewer — the critical one is in `critical_issues` with count 1,
and the low one's severity never appears there. -/
theorem consolidate_critical_issues_witness :
    (∀ f ∈ (consolidate_reviews
        [{ agent_name := "A", agent_type := "security", overall_score := 7, summary := "s",
           findings :=
             [{ agent_type := "security", severity := Severity.critical,
                title := "t1", description := "t1" },
              { agent_type := "security", severity := Severity.low,
                title := "t2", description := "t2" }],
           recommendations := [] }] "c" none).critical_issues,
      f.severity = Severity.critical) ∧
    (consolidate_reviews
        [{ agent_name := "A", agent_type := "security", overall_score := 7, summary := "s",
           findings :=
             [{ agent_type := "security", severity := Severity.critical,
                title := "t1", description := "t1" },
              { agent_type := "security", severity := Severity.low,
                title := "t2", description := "t2" }],
           recommendations := [] }] "c" none).critical_issues.countP
      (fun g => decide (g =
        ({ agent_type := "security", severity := Severity.critical,
           title := "t1", description := "t1" } : ReviewFinding))) =
    (([{ agent_name := "A", agent_type := "security", overall_score := 7, summary := "s",
         findings :=
           [{ agent_type := "security", severity := Severity.critical,
              title := "t1", description := "t1" },
            { agent_type := "security", severity := Severity.low,
              title := "t2", description := "t2" }],
         recommendations := [] }] : List AgentReview).map (fun r => r.findings)).flatten.countP
      (fun g => decide (g =
        ({ agent_type := "security", severity := Severity.critical,
           title := "t1", description := "t1" } : ReviewFinding))) :=
  ⟨(consolidate_critical_issues _ "c" none).2.1,
   (consolidate_critical_issues _ "c" none).2.2 _ (by decide)⟩

/-- C8: `review_code` returns `none` (and does not raise) when the
enabled-agent set is empty, returns `none` when no individual agent
review succeeds, and otherwise returns a `ConsolidatedReview` built from
exactly the successful reviews (its `agent_reviews` field is the list of
successful reviews). -/
theorem review_code_outcomes (enabled_agents : List String)
    (agent_results : String → Option AgentReview) (code : String)
    (analysis_response : Option String) :
    (enabled_agents = [] →
      review_code enabled_agents agent_results code analysis_response = none)
    ∧ (enabled_agents.filterMap agent_results = [] →
      review_code enabled_agents agent_results code analysis_response = none)
    ∧ (enabled_agents.filterMap agent_results ≠ [] →
      review_code enabled_agents agent_results code analysis_response =
        some (consolidate_reviews (enabled_agents.filterMap agent_results) code
          analysis_response)
      ∧ ∀ cr, review_code enabled_agents agent_results code analysis_response = some cr →
          cr.agent_reviews = enabled_agents.filterMap agent_results) := by
  refine ⟨?_, ?_, ?_⟩
  · intro hemp
    subst hemp
    rfl
  · intro hfail
    rw [review_code, hfail]
    simp
  · intro hsucc
    have hemp : enabled_agents.isEmpty = false := by
      cases enabled_agents with
      | nil => simp at hsucc
      | cons a l => rfl
    have hres : review_code enabled_agents agent_results code analysis_response =
        some (consolidate_reviews (enabled_agents.filterMap agent_results) code
          analysis_response) := by
      rw [review_code, hemp]
      simp only [Bool.false_eq_true, if_false]
      rw [if_neg (by simpa [List.isEmpty_iff] using hsucc)]
    refine ⟨hres, ?_⟩
    intro cr hcr
    rw [hres] at hcr
    have h1 := Option.some.inj hcr
    rw [← h1]
    rfl

/-- Witness for C8: no agents enabled gives `none`; one enabled agent
whose run fails gives `none`; one enabled agent with a successful review
gives a consolidated result carrying exactly that review. -/
theorem review_code_outcomes_witness :
    review_code [] (fun _ => none) "c" none = none
    ∧ review_code ["security"] (fun _ => none) "c" none = none
    ∧ review_code ["security"]
        (fun t => if t = "security" then
            some { agent_name := "A", agent_type := "security", overall_score := 9,
                   summary := "s", findings := [], recommendations := [] }
          else none) "c" none =
        some (consolidate_reviews
          [{ agent_name := "A", agent_type := "security", overall_score := 9,
             summary := "s", findings := [], recommendations := [] }] "c" none) :=
  ⟨(review_code_outcomes [] (fun _ => none) "c" none).1 rfl,
   (review_code_outcomes ["security"] (fun _ => none) "c" none).2.1 (by decide),
   ((review_code_outcomes ["security"]
      (fun t => if t = "security" then
          some { agent_name := "A", agent_type := "security", overall_score := 9,
                 summary := "s", findings := [], recommendations := [] }
        else none) "c" none).2.2 (by decide)).1⟩

/-- Dict lookups survive appending a binding for another key, and a
binding that is present is returned unchanged. -/
theorem cacheLookup_append (m : List (String × Nat)) (k : String) (p : String × Nat) :
    cacheLookup (m ++ [p]) k =
      match cacheLookup m k with
      | some c => some c
      | none => if p.1 == k then some p.2 else none := by
  rw [cacheLookup, List.find?_append]
  cases hf : List.find? (fun q => q.1 == k) m with
  | some q => simp [cacheLookup, hf, Option.or]
  | none =>
    simp only [cacheLookup, hf, Option.map_none', Option.or]
    cases hp : (p.1 == k) with
    | true => simp [List.find?, hp]
    | false => simp [List.find?, hp]

/-- `get_instance` never removes or overwrites an existing cache binding. -/
theorem get_instance_preserves (st : CacheState) (k : String) (c : Nat)
    (hc : cacheLookup st.llm_map k = some c)
    (name : String) (is_local : Bool) (creativity_repr : String) :
    cacheLookup ((get_instance st name is_local creativity_repr).2).llm_map k = some c := by
  rw [get_instance]
  cases hl : cacheLookup st.llm_map (cache_key name is_local creativity_repr) with
  | some c2 => simpa using hc
  | none =>
    simp only []
    rw [cacheLookup_append, hc]

/-- An arbitrary sequence of further `get_instance` calls never removes
or overwrites an existing cache binding. -/
theorem runCalls_preserves (calls : List (String × Bool × String)) (st : CacheState)
    (k : String) (c : Nat) (hc : cacheLookup st.llm_map k = some c) :
    cacheLookup (runCalls calls st).llm_map k = some c := by
  induction calls generalizing st with
  | nil => exact hc
  | cons call calls ih =>
    exact ih _ (get_instance_preserves st k c hc call.1 call.2.1 call.2.2)

/-- After `get_instance`, the returned client is the one stored under the
key. -/
theorem get_instance_stores (st : CacheState) (name : String) (is_local : Bool)
    (creativity_repr : String) :
    cacheLookup ((get_instance st name is_local creativity_repr).2).llm_map
        (cache_key name is_local creativity_repr) =
      some (get_instance st name is_local creativity_repr).1 := by
  rw [get_instance]
  cases hl : cacheLookup st.llm_map (cache_key name is_local creativity_repr) with
  | some c => simpa using hl
  | none =>
    simp only []
    rw [cacheLookup_append, hl]
    simp

/-- A cache hit returns the stored client without touching the state. -/
theorem get_instance_hit (st : CacheState) (name : String) (is_local : Bool)
    (creativity_repr : String) (c : Nat)
    (hc : cacheLookup st.llm_map (cache_key name is_local creativity_repr) = some c) :
    get_instance st name is_local creativity_repr = (c, st) := by
  rw [get_instance, hc]

/-- C7: cache lookup is idempotent.  For every key
`(name, is_local, creativity_level)`, the first `get_instance` call
constructs a client exactly when none is cached (lazily, with a fresh
identity), a cached key is served without construction, and after any
sequence of further `get_instance` calls, a repeated call with the same
key returns the identical client instance and performs no construction
(the state is unchanged). -/
theorem get_instance_idempotent (st : CacheState) (name : String) (is_local : Bool)
    (creativity_repr : String) (calls : List (String × Bool × String)) :
    ((get_instance (runCalls calls (get_instance st name is_local creativity_repr).2)
        name is_local creativity_repr).1 =
      (get_instance st name is_local creativity_repr).1)
    ∧ ((get_instance (runCalls calls (get_instance st name is_local creativity_repr).2)
        name is_local creativity_repr).2 =
      runCalls calls (get_instance st name is_local creativity_repr).2)
    ∧ (cacheLookup st.llm_map (cache_key name is_local creativity_repr) = none →
      (get_instance st name is_local creativity_repr).1 = st.next_id ∧
      ((get_instance st name is_local creativity_repr).2).next_id = st.next_id + 1)
    ∧ (∀ c, cacheLookup st.llm_map (cache_key name is_local creativity_repr) = some c →
      get_instance st name is_local creativity_repr = (c, st)) := by
  have hstored := get_instance_stores st name is_local creativity_repr
  have hkept := runCalls_preserves calls _ _ _ hstored
  have hhit := get_instance_hit _ name is_local creativity_repr _ hkept
  refine ⟨?_, ?_, ?_, ?_⟩
  · rw [hhit]
  · rw [hhit]
  · intro hmiss
    rw [get_instance, hmiss]
    exact ⟨rfl, rfl⟩
  · intro c hc
    exact get_instance_hit st name is_local creativity_repr c hc

/-- Witness for C7: starting from an empty cache, the `security_agent`
client is constructed once (identity 0) and a later call after an
intervening `consolidation_agent` call returns the identical instance. -/
theorem get_instance_idempotent_witness :
    (get_instance (runCalls [("consolidation_agent", false, "0.2")]
        (get_instance ⟨[], 0⟩ "security_agent" false "0.1").2)
      "security_agent" false "0.1").1 =
      (get_instance ⟨[], 0⟩ "security_agent" false "0.1").1
    ∧ (get_instance ⟨[], 0⟩ "security_agent" false "0.1").1 = 0 :=
  ⟨(get_instance_idempotent ⟨[], 0⟩ "security_agent" false "0.1"
      [("consolidation_agent", false, "0.2")]).1,
   ((get_instance_idempotent ⟨[], 0⟩ "security_agent" false "0.1"
      [("consolidation_agent", false, "0.2")]).2.2.1 (by decide)).1⟩

/-- C3: `generate_json_review_comments` never raises to its caller — the
embedding is a total function — and follows the ordered fallback chain:
no usable backend reply gives `[]`; a falsy reply gives `[]`; a reply
that fails direct JSON parsing, fenced-block extraction and bracket-span
extraction gives `[]`; a direct parse to a non-array gives `[]`; a
direct parse to an array is normalized and returned; when direct parsing
fails, the fenced-block extraction is tried before the bracket-span
extraction, and an extracted string that fails to parse (or parses to a
non-array) again gives `[]`. -/
theorem generate_json_review_comments_chain
    (jsonLoads : String → Option JsonValue)
    (fenced span : String → Option String)
    (ef : List String) (fp : String) :
    (generate_json_review_comments jsonLoads fenced span ef fp none = [])
    ∧ (generate_json_review_comments jsonLoads fenced span ef fp (some "") = [])
    ∧ (∀ r, r ≠ "" → jsonLoads (pyStrip r) = none → fenced r = none → span r = none →
        generate_json_review_comments jsonLoads fenced span ef fp (some r) = [])
    ∧ (∀ r, r ≠ "" → jsonLoads (pyStrip r) = some JsonValue.nonArray →
        generate_json_review_comments jsonLoads fenced span ef fp (some r) = [])
    ∧ (∀ r items, r ≠ "" → jsonLoads (pyStrip r) = some (JsonValue.arr items) →
        generate_json_review_comments jsonLoads fenced span ef fp (some r) =
          items.mapIdx (normalizeDirectItem ef fp))
    ∧ (∀ r js, r ≠ "" → jsonLoads (pyStrip r) = none → fenced r = some js →
        generate_json_review_comments jsonLoads fenced span ef fp (some r) =
          (match jsonLoads js with
           | some (JsonValue.arr items) => items.mapIdx (normalizeFallbackItem ef fp)
           | _ => []))
    ∧ (∀ r js, r ≠ "" → jsonLoads (pyStrip r) = none → fenced r = none → span r = some js →
        generate_json_review_comments jsonLoads fenced span ef fp (some r) =
          (match jsonLoads js with
           | some (JsonValue.arr items) => items.mapIdx (normalizeFallbackItem ef fp)
           | _ => [])) := by
  refine ⟨rfl, rfl, ?_, ?_, ?_, ?_, ?_⟩
  · intro r hr hd hf hs
    rw [generate_json_review_comments, if_neg hr, hd, hf, hs]
    rfl
  · intro r hr hd
    rw [generate_json_review_comments, if_neg hr, hd]
  · intro r items hr hd
    rw [generate_json_review_comments, if_neg hr, hd]
  · intro r js hr hd hf
    rw [generate_json_review_comments, if_neg hr, hd, hf]
    rfl
  · intro r js hr hd hf hs
    rw [generate_json_review_comments, if_neg hr, hd, hf, hs]
    rfl

/-- Witness for C3: a malformed, non-JSON, non-fenced reply — on which
direct parsing, fenced-block extraction and bracket-span extraction all
fail — yields the empty list, not an exception. -/
theorem generate_json_review_comments_chain_witness :
    generate_json_review_comments (fun _ => none) (fun _ => none) (fun _ => none)
      ["a.js"] "f.js" (some "I could not produce the requested review output.") = [] :=
  (generate_json_review_comments_chain (fun _ => none) (fun _ => none) (fun _ => none)
      ["a.js"] "f.js").2.2.1
    "I could not produce the requested review output." (by decide) rfl rfl rfl

/-- Indexing through `List.mapIdx`. -/
theorem mapIdx_getElem? {α β : Type} (f : Nat → α → β) (l : List α) (i : Nat) :
    (l.mapIdx f)[i]? = (l[i]?).map (f i) := by
  induction l generalizing f i with
  | nil => simp
  | cons a l ih =>
    rw [List.mapIdx_cons]
    cases i with
    | zero => simp
    | succ n => simp [ih]

/-- C2 counterexample: with known paths `["a.js", "b.js"]` and one parsed
item claiming path `"xa.js"` — a path that matches (equals) none of the
known paths — the claim as stated forces the assignment of
`known[0 mod 2] = "a.js"`, but the code keeps `"xa.js"` because its keep
test is substring containment (`"a.js"` occurs inside `"xa.js"`), not
path membership. -/
theorem generate_json_review_comments_counterexample :
    generate_json_review_comments
        (fun s =>
          if s = "[\x7b\"file_path\": \"xa.js\", \"line_number\": 1, \"review_comment\": \"c\"\x7d]"
          then some (JsonValue.arr [JsonItem.obj ⟨some "xa.js", some 1, some "c"⟩])
          else none)
        (fun _ => none) (fun _ => none) ["a.js", "b.js"] "f.js"
        (some "[\x7b\"file_path\": \"xa.js\", \"line_number\": 1, \"review_comment\": \"c\"\x7d]")
      = [JsonItem.obj ⟨some "xa.js", some 1, some "c"⟩]
    ∧ ¬ ("xa.js" ∈ ["a.js", "b.js"])
    ∧ "xa.js" ≠ "a.js" := by
  refine ⟨by decide, by decide, by decide⟩

/-- C2 (amended): on the direct-parse path, an object item whose claimed
path is not the literal `'unknown'` and contains some known path as a
substring keeps its claimed path, and every other object item is
assigned the known path at position `index mod len(knownFilePaths)`; on
the fenced-block/bracket-span fallback path every object item is
assigned round-robin unconditionally; when the known-path list is empty,
every object item is stamped with the caller-supplied primary file path
(on both paths). -/
theorem generate_json_review_comments_path_policy
    (jsonLoads : String → Option JsonValue) (fenced span : String → Option String)
    (ef : List String) (fp : String) :
    (∀ r items i c, r ≠ "" → jsonLoads (pyStrip r) = some (JsonValue.arr items) →
      items[i]? = some (JsonItem.obj c) →
      (generate_json_review_comments jsonLoads fenced span ef fp (some r))[i]? =
        some (JsonItem.obj { c with
          file_path := some (if ef.isEmpty then fp
            else if (c.file_path.getD "unknown") != "unknown"
                && ef.any (fun e => pyContains (c.file_path.getD "unknown") e) then
              c.file_path.getD "unknown"
            else ef.getD (i % ef.length) "") }))
    ∧ (∀ r js items i c, r ≠ "" → jsonLoads (pyStrip r) = none → fenced r = some js →
        jsonLoads js = some (JsonValue.arr items) →
        items[i]? = some (JsonItem.obj c) →
        (generate_json_review_comments jsonLoads fenced span ef fp (some r))[i]? =
          some (JsonItem.obj { c with
            file_path := some (if ef.isEmpty then fp else ef.getD (i % ef.length) "") })) := by
  constructor
  · intro r items i c hr hd hi
    rw [generate_json_review_comments, if_neg hr, hd]
    rw [mapIdx_getElem?, hi, Option.map_some']
    simp only [normalizeDirectItem]
    by_cases hemp : ef.isEmpty
    · simp [hemp]
    · simp only [hemp, Bool.not_false, if_true, if_false, Bool.false_eq_true]
      by_cases hkeep : ((c.file_path.getD "unknown") != "unknown"
          && ef.any (fun e => pyContains (c.file_path.getD "unknown") e)) = true
      · simp [hkeep]
      · simp [hkeep]
  · intro r js items i c hr hd hf hj hi
    rw [generate_json_review_comments, if_neg hr, hd, hf]
    show (match jsonLoads js with
          | some (JsonValue.arr its) => its.mapIdx (normalizeFallbackItem ef fp)
          | _ => [])[i]? = _
    rw [hj]
    rw [mapIdx_getElem?, hi, Option.map_some']
    simp only [normalizeFallbackItem]
    by_cases hemp : ef.isEmpty
    · simp [hemp]
    · simp [hemp]

/-- Witness for C2 (amended), which is also the round-robin example of
the claim: known paths `["a.js", "b.js"]` and three parsed items whose
claimed paths are `""`, absent, and `"unknown"` receive
`[a.js, b.js, a.js]`. -/
theorem generate_json_review_comments_path_policy_witness :
    ((generate_json_review_comments
        (fun s => if s = "resp"
          then some (JsonValue.arr
            [JsonItem.obj ⟨some "", none, some "c1"⟩,
             JsonItem.obj ⟨none, none, some "c2"⟩,
             JsonItem.obj ⟨some "unknown", none, some "c3"⟩])
          else none)
        (fun _ => none) (fun _ => none) ["a.js", "b.js"] "f.js" (some "resp"))[0]? =
      some (JsonItem.obj ⟨some "a.js", none, some "c1"⟩))
    ∧ ((generate_json_review_comments
        (fun s => if s = "resp"
          then some (JsonValue.arr
            [JsonItem.obj ⟨some "", none, some "c1"⟩,
             JsonItem.obj ⟨none, none, some "c2"⟩,
             JsonItem.obj ⟨some "unknown", none, some "c3"⟩])
          else none)
        (fun _ => none) (fun _ => none) ["a.js", "b.js"] "f.js" (some "resp"))[1]? =
      some (JsonItem.obj ⟨some "b.js", none, some "c2"⟩))
    ∧ ((generate_json_review_comments
        (fun s => if s = "resp"
          then some (JsonValue.arr
            [JsonItem.obj ⟨some "", none, some "c1"⟩,
             JsonItem.obj ⟨none, none, some "c2"⟩,
             JsonItem.obj ⟨some "unknown", none, some "c3"⟩])
          else none)
        (fun _ => none) (fun _ => none) ["a.js", "b.js"] "f.js" (some "resp"))[2]? =
      some (JsonItem.obj ⟨some "a.js", none, some "c3"⟩)) :=
  ⟨(generate_json_review_comments_path_policy
      (fun s => if s = "resp"
        then some (JsonValue.arr
          [JsonItem.obj ⟨some "", none, some "c1"⟩,
           JsonItem.obj ⟨none, none, some "c2"⟩,
           JsonItem.obj ⟨some "unknown", none, some "c3"⟩])
        else none)
      (fun _ => none) (fun _ => none) ["a.js", "b.js"] "f.js").1
      "resp"
      [JsonItem.obj ⟨some "", none, some "c1"⟩,
       JsonItem.obj ⟨none, none, some "c2"⟩,
       JsonItem.obj ⟨some "unknown", none, some "c3"⟩]
      0 ⟨some "", none, some "c1"⟩ (by decide) (by decide) (by decide),
   (generate_json_review_comments_path_policy
      (fun s => if s = "resp"
        then some (JsonValue.arr
          [JsonItem.obj ⟨some "", none, some "c1"⟩,
           JsonItem.obj ⟨none, none, some "c2"⟩,
           JsonItem.obj ⟨some "unknown", none, some "c3"⟩])
        else none)
      (fun _ => none) (fun _ => none) ["a.js", "b.js"] "f.js").1
      "resp"
      [JsonItem.obj ⟨some "", none, some "c1"⟩,
       JsonItem.obj ⟨none, none, some "c2"⟩,
       JsonItem.obj ⟨some "unknown", none, some "c3"⟩]
      1 ⟨none, none, some "c2"⟩ (by decide) (by decide) (by decide),
   (generate_json_review_comments_path_policy
      (fun s => if s = "resp"
        then some (JsonValue.arr
          [JsonItem.obj ⟨some "", none, some "c1"⟩,
           JsonItem.obj ⟨none, none, some "c2"⟩,
           JsonItem.obj ⟨some "unknown", none, some "c3"⟩])
        else none)
      (fun _ => none) (fun _ => none) ["a.js", "b.js"] "f.js").1
      "resp"
      [JsonItem.obj ⟨some "", none, some "c1"⟩,
       JsonItem.obj ⟨none, none, some "c2"⟩,
       JsonItem.obj ⟨some "unknown", none, some "c3"⟩]
      2 ⟨some "unknown", none, some "c3"⟩ (by decide) (by decide) (by decide)⟩

/-- The diff-only restriction sentence that opens every diff-only prompt
of `specialized_agents.py` (identical wording in the security,
performance, coding-practices, architecture and readability templates). -/
def diffRestrictionText : String :=
  "CRITICAL RESTRICTION: You are reviewing a DIFF with context. You MUST ONLY comment on the lines that are being ADDED or CHANGED in the diff (lines starting with \x27+\x27 or modified lines). DO NOT comment on context lines or unchanged code."

/-- Two strings of the shape `pre ++ mid ++ post` differ whenever their
`pre` parts differ within their first `n` characters. -/
theorem concat3_ne_of_take_ne (p₁ c₁ s₁ p₂ c₂ s₂ : String) (n : Nat)
    (h₁ : n ≤ p₁.data.length) (h₂ : n ≤ p₂.data.length)
    (hne : p₁.data.take n ≠ p₂.data.take n) :
    p₁ ++ c₁ ++ s₁ ≠ p₂ ++ c₂ ++ s₂ := by
  intro h
  apply hne
  have hd : (p₁ ++ c₁ ++ s₁).data = (p₂ ++ c₂ ++ s₂).data := by rw [h]
  rw [String.data_append, String.data_append, String.data_append, String.data_append] at hd
  have hl1 : n ≤ (p₁.data ++ c₁.data).length := by
    rw [List.length_append]; omega
  have hl2 : n ≤ (p₂.data ++ c₂.data).length := by
    rw [List.length_append]; omega
  calc p₁.data.take n = ((p₁.data ++ c₁.data) ++ s₁.data).take n := by
        rw [List.take_append_of_le_length hl1, List.take_append_of_le_length h₁]
    _ = ((p₂.data ++ c₂.data) ++ s₂.data).take n := by rw [hd]
    _ = p₂.data.take n := by
        rw [List.take_append_of_le_length hl2, List.take_append_of_le_length h₂]

/-- A substring of `a` is a substring of `a ++ b`. -/
theorem pyContains_append_left (a b pat : String) (h : pyContains a pat = true) :
    pyContains (a ++ b) pat = true := by
  rw [pyContains, List.any_eq_true] at h ⊢
  obtain ⟨t, ht, hp⟩ := h
  rw [List.mem_tails] at ht
  refine ⟨t ++ b.data, ?_, ?_⟩
  · rw [List.mem_tails, String.data_append]
    obtain ⟨s, hs⟩ := ht
    exact ⟨s, by rw [← hs, List.append_assoc]⟩
  · rw [List.isPrefixOf_iff_prefix] at hp ⊢
    exact hp.trans (List.prefix_append t b.data)

/-- C5 counterexample: the testability category ignores `diff_only` — at
input `"x"`, its `get_specialized_prompt` with `diff_only = true` is
identical to the prompt with `diff_only = false`, so not every reviewer
category produces a restricted diff-only prompt distinct from its
non-diff-only one. -/
theorem testability_prompt_ignores_diff_only :
    testabilityPrompt "x" true = testabilityPrompt "x" false := rfl

/-- C5 (amended): for the security, performance, coding-practices,
architecture and readability categories, `get_specialized_prompt` with
`diff_only = true` produces, for every input, a prompt different from
the non-diff-only one that contains the restriction instruction to
comment only on added/changed lines and to ignore context lines; the
testability category instead returns the same prompt regardless of
`diff_only`. -/
theorem diff_only_prompt_policy (code : String) :
    (securityPrompt code true ≠ securityPrompt code false
      ∧ pyContains (securityPrompt code true) diffRestrictionText = true)
    ∧ (performancePrompt code true ≠ performancePrompt code false
      ∧ pyContains (performancePrompt code true) diffRestrictionText = true)
    ∧ (codingPracticesPrompt code true ≠ codingPracticesPrompt code false
      ∧ pyContains (codingPracticesPrompt code true) diffRestrictionText = true)
    ∧ (architecturePrompt code true ≠ architecturePrompt code false
      ∧ pyContains (architecturePrompt code true) diffRestrictionText = true)
    ∧ (readabilityPrompt code true ≠ readabilityPrompt code false
      ∧ pyContains (readabilityPrompt code true) diffRestrictionText = true)
    ∧ testabilityPrompt code true = testabilityPrompt code false := by
  refine ⟨⟨?_, ?_⟩, ⟨?_, ?_⟩, ⟨?_, ?_⟩, ⟨?_, ?_⟩, ⟨?_, ?_⟩, rfl⟩
  · exact concat3_ne_of_take_ne securityDiffPre code securityDiffPost
      securityFullPre (numberedCode code) securityFullPost 90
      (by decide) (by decide) (by decide)
  · exact pyContains_append_left _ _ _
      (pyContains_append_left securityDiffPre code diffRestrictionText (by decide))
  · exact concat3_ne_of_take_ne performanceDiffPre code performanceDiffPost
      performanceFullPre (numberedCode code) performanceFullPost 90
      (by decide) (by decide) (by decide)
  · exact pyContains_append_left _ _ _
      (pyContains_append_left performanceDiffPre code diffRestrictionText (by decide))
  · exact concat3_ne_of_take_ne codingPracticesDiffPre code codingPracticesDiffPost
      codingPracticesFullPre (numberedCode code) codingPracticesFullPost 90
      (by decide) (by decide) (by decide)
  · exact pyContains_append_left _ _ _
      (pyContains_append_left codingPracticesDiffPre code diffRestrictionText (by decide))
  · exact concat3_ne_of_take_ne architectureDiffPre code architectureDiffPost
      architectureFullPre (numberedCode code) architectureFullPost 90
      (by decide) (by decide) (by decide)
  · exact pyContains_append_left _ _ _
      (pyContains_append_left architectureDiffPre code diffRestrictionText (by decide))
  · exact concat3_ne_of_take_ne readabilityDiffPre code readabilityDiffPost
      readabilityFullPre (numberedCode code) readabilityFullPost 90
      (by decide) (by decide) (by decide)
  · exact pyContains_append_left _ _ _
      (pyContains_append_left readabilityDiffPre code diffRestrictionText (by decide))

/-- Witness for C5 (amended) at the concrete input `"x"`: the security
diff-only prompt contains the restriction instruction. -/
theorem diff_only_prompt_policy_witness :
    pyContains (securityPrompt "x" true) diffRestrictionText = true :=
  (diff_only_prompt_policy "x").1.2

end CodeReviewer
